import Mathlib

/-!
Verification of the Tier Nearest Scooter sensor (`sensor.py`).

The embedding models the two components of the source file:

* `TierNearestScooterApi.get_vehicles` as `get_vehicles`, over an abstract
  network outcome (`NetResponse`), mirroring its `try`/`except` structure;
* `TierNearestScooterSensor.update` as `update`, over a JSON value model
  (`Json`) with Python truthiness, dict lookup/assignment, and Python 3
  `round` (half-to-even) on rationals.  Python floats are modelled as `ℚ`;
  exceptions escaping a function are modelled with `Except PyError`.

The haversine helper `homeassistant.util.location.distance` and the
`Throttle` decorator live in `homeassistant`, outside this repository, so
the distance function is an abstract parameter of `update` and throttling
is modelled from the spec (see `throttledUpdate`).

The stable `sorted(vehicles, key=...)` of the source is modelled with
`List.mergeSort`, which is a stable sort; a stable sort's output is unique
for a fixed key, so this is faithful to CPython's Timsort.
-/

namespace TierScooter

/-- A JSON value as produced by `response.json()`: Python `None`, `bool`,
numbers (floats modelled as `ℚ`), strings, lists, and dicts (keyed by
strings, in insertion order). -/
inductive Json where
  | null
  | bool (b : Bool)
  | num (q : ℚ)
  | str (s : String)
  | arr (items : List Json)
  | obj (fields : List (String × Json))

/-- Python truthiness of a JSON value (`if result:` / `if vehicles:`). -/
def truthy : Json → Bool
  | .null => false
  | .bool b => b
  | .num q => decide (q ≠ 0)
  | .str s => s ≠ ""
  | .arr items => !items.isEmpty
  | .obj fields => !fields.isEmpty

/-- Python dict subscript `d[k]` (first binding; dict keys are unique). -/
def lookup {α : Type} (fields : List (String × α)) (k : String) : Option α :=
  (fields.find? (fun p => p.1 == k)).map (·.2)

/-- Python dict assignment `d[k] = v`: replace in place if the key exists
(insertion order kept), otherwise append. -/
def setKey (fields : List (String × Json)) (k : String) (v : Json) :
    List (String × Json) :=
  if (fields.find? (fun p => p.1 == k)).isSome then
    fields.map (fun p => if p.1 == k then (p.1, v) else p)
  else fields ++ [(k, v)]

/-- A JSON value usable as a Python number (`bool` is an `int` in Python). -/
def asNum : Json → Option ℚ
  | .num q => some q
  | .bool b => some (if b then 1 else 0)
  | _ => none

/-- Python 3 `round(q)`: round half to even, as an integer. -/
def pyRound (q : ℚ) : ℤ :=
  if q - ⌊q⌋ < 1/2 then ⌊q⌋
  else if 1/2 < q - ⌊q⌋ then ⌊q⌋ + 1
  else if ⌊q⌋ % 2 = 0 then ⌊q⌋ else ⌊q⌋ + 1

/-- Python 3 `round(q, 5)`: round to 5 decimal places, half to even. -/
def pyRound5 (q : ℚ) : ℚ := (pyRound (q * 100000) : ℚ) / 100000

/-- The error messages `sensor.py` can log via `_LOGGER.error`. -/
inductive LogEvent where
  | errorFetching      -- "Error fetching data: ..." (get_vehicles)
  | errorParsing       -- "Error parsing data: ..." (get_vehicles)
  | emptyResult        -- "Empty result found when expecting list of vehicles"
  | erroneousResult    -- "Erroneous result found when expecting list of vehicles"
deriving DecidableEq, Repr

/-- A Python exception escaping a function of the source. -/
inductive PyError where
  | keyError (k : String)
  | typeError
deriving DecidableEq, Repr

/-! ### Fetcher: `TierNearestScooterApi.get_vehicles` -/

/-- Abstract outcome of the HTTP request issued by `get_vehicles`. -/
inductive NetResponse where
  | connectionError            -- `requests.get` raises a transport error
  | timeout                    -- the 10-second timeout fires
  | httpError (status : Nat)   -- non-2xx status: `raise_for_status` raises
  | badBody                    -- 2xx but `response.json()` raises ValueError
  | ok (body : Json)           -- 2xx with a parseable JSON body

/-- The exceptions the `try` block of `get_vehicles` can raise. -/
inductive FetchExc where
  | requestException           -- `requests.exceptions.RequestException`
  | valueError                 -- `ValueError` from `response.json()`
deriving DecidableEq, Repr

/-- What the `try` block of `get_vehicles` produces: the parsed body, or the
exception raised by `requests.get`, `raise_for_status`, or `response.json()`. -/
def attemptFetch : NetResponse → Except FetchExc Json
  | .connectionError => .error .requestException
  | .timeout => .error .requestException
  | .httpError _ => .error .requestException
  | .badBody => .error .valueError
  | .ok body => .ok body

/-- `TierNearestScooterApi.get_vehicles`: runs the `try` block and catches
`RequestException` and `ValueError`, logging and returning `None` for each.
Returns the result together with the log messages emitted. -/
def get_vehicles (r : NetResponse) : Option Json × List LogEvent :=
  match attemptFetch r with
  | .ok body => (some body, [])
  | .error .requestException => (none, [.errorFetching])
  | .error .valueError => (none, [.errorParsing])

/-! ### Sensor state -/

/-- An attribute value stored in `self._attributes`. -/
inductive AttrValue where
  | num (q : ℚ)
  | int (z : ℤ)
  | str (s : String)
deriving DecidableEq, Repr

/-- `ATTR_ATTRIBUTION` string constant (`ATTRIBUTION` in the source). -/
def ATTRIBUTION : String := "Data provided by Tier"

/-- The mutable sensor entity: configuration plus `self._state` and
`self._attributes` (a Python dict, modelled as an ordered association list). -/
structure Sensor where
  latitude : ℚ
  longitude : ℚ
  radius : ℚ
  state : Option ℤ
  attributes : List (String × AttrValue)
deriving DecidableEq, Repr

/-- `TierNearestScooterSensor.__init__`: state starts as `None`, attributes
as the empty dict. -/
def initSensor (latitude longitude radius : ℚ) : Sensor :=
  { latitude := latitude, longitude := longitude, radius := radius,
    state := none, attributes := [] }

/-! ### `TierNearestScooterSensor.update` -/

/-- Lines 130–144 of `update`: reset, then
`vehicles = {}` / `if result: try: vehicles = result["data"] except KeyError`
/ `else:` log.  Subscripting a truthy non-dict raises `TypeError`, which is
not caught; a missing `"data"` key raises `KeyError`, which is caught and
logged. -/
def extractData (result : Option Json) : Except PyError (Json × List LogEvent) :=
  match result with
  | some r =>
    if truthy r then
      match r with
      | .obj fields =>
        match lookup fields "data" with
        | some v => .ok (v, [])
        | none => .ok (.obj [], [.erroneousResult])
      | _ => .error .typeError
    else .ok (.obj [], [.emptyResult])
  | none => .ok (.obj [], [.emptyResult])

/-- One iteration of the `for vehicle in vehicles:` loop body:
`vehicle["distance"] = distance(vehicle["lat"], vehicle["lng"], lat, lng)`.
Evaluation order of the source line: the `"lat"` lookup, then the `"lng"`
lookup (each raising `KeyError` if absent, or `TypeError` on a non-dict),
then the arithmetic inside `distance` (raising `TypeError` on non-numbers),
then the dict assignment.  Returns the mutated dict paired with the computed
distance. -/
def annotateVehicle (dist : ℚ → ℚ → ℚ → ℚ → ℚ) (slat slng : ℚ) (v : Json) :
    Except PyError (Json × ℚ) :=
  match v with
  | .obj fields =>
    match lookup fields "lat" with
    | none => .error (.keyError "lat")
    | some latJ =>
      match lookup fields "lng" with
      | none => .error (.keyError "lng")
      | some lngJ =>
        match asNum latJ, asNum lngJ with
        | some la, some ln =>
          .ok (.obj (setKey fields "distance" (.num (dist la ln slat slng))),
               dist la ln slat slng)
        | _, _ => .error .typeError
  | _ => .error .typeError

/-- The whole `for` loop: left to right, aborting at the first exception. -/
def annotateAll (dist : ℚ → ℚ → ℚ → ℚ → ℚ) (slat slng : ℚ) :
    List Json → Except PyError (List (Json × ℚ))
  | [] => .ok []
  | v :: rest =>
    match annotateVehicle dist slat slng v with
    | .error e => .error e
    | .ok p =>
      match annotateAll dist slat slng rest with
      | .error e => .error e
      | .ok ps => .ok (p :: ps)

/-- The comparison used to model `sorted(vehicles, key=lambda item: item["distance"])`. -/
def keyLe {α : Type} (k : α → ℚ) (a b : α) : Bool := decide (k a ≤ k b)

/-- Lines 154–157: `self._state = round(scooter["distance"])` followed by the
four attribute assignments, in source order: `"lat"` lookup, `round(·, 5)`;
`"lng"` lookup, `round(·, 5)`; `"batteryLevel"` lookup (`KeyError` if absent),
`round` (`TypeError` on a non-number); then the static attribution. -/
def finishScooter (scooter : Json × ℚ) :
    Except PyError (ℤ × List (String × AttrValue)) :=
  match scooter.1 with
  | .obj fields =>
    match lookup fields "lat" with
    | none => .error (.keyError "lat")
    | some latJ =>
      match asNum latJ with
      | none => .error .typeError
      | some la =>
        match lookup fields "lng" with
        | none => .error (.keyError "lng")
        | some lngJ =>
          match asNum lngJ with
          | none => .error .typeError
          | some ln =>
            match lookup fields "batteryLevel" with
            | none => .error (.keyError "batteryLevel")
            | some bJ =>
              match asNum bJ with
              | none => .error .typeError
              | some b =>
                .ok (pyRound scooter.2,
                  [("latitude", .num (pyRound5 la)),
                   ("longitude", .num (pyRound5 ln)),
                   ("battery_level", .int (pyRound b)),
                   ("attribution", .str ATTRIBUTION)])
  | _ => .error .typeError

/-- Lines 146–158: `if vehicles:` then the distance loop, the stable sort by
distance, taking element `[0]`, and the state/attribute assignments.  A truthy
non-list `vehicles` raises `TypeError` (iterating a number/bool fails at once;
iterating a string or a dict yields strings, whose `["lat"]` subscript fails). -/
def processVehicles (dist : ℚ → ℚ → ℚ → ℚ → ℚ) (slat slng : ℚ)
    (vehicles : Json) : Except PyError (Option ℤ × List (String × AttrValue)) :=
  if truthy vehicles then
    match vehicles with
    | .arr items =>
      match annotateAll dist slat slng items with
      | .error e => .error e
      | .ok annotated =>
        match (annotated.mergeSort (keyLe Prod.snd)).head? with
        | none => .error .typeError
        | some scooter =>
          match finishScooter scooter with
          | .error e => .error e
          | .ok (z, attrs) => .ok (some z, attrs)
    | _ => .error .typeError
  else .ok (none, [])

/-- `TierNearestScooterSensor.update` (lines 128–158), given the already
fetched `result` of `self._api.get_vehicles(...)` and the abstract distance
function.  Returns the updated sensor and the log messages `update` itself
emitted, or the escaping Python exception. -/
def update (dist : ℚ → ℚ → ℚ → ℚ → ℚ) (result : Option Json) (s : Sensor) :
    Except PyError (Sensor × List LogEvent) :=
  match extractData result with
  | .error e => .error e
  | .ok (vehicles, logs) =>
    match processVehicles dist s.latitude s.longitude vehicles with
    | .error e => .error e
    | .ok (st, attrs) => .ok ({ s with state := st, attributes := attrs }, logs)

/-- A full permitted update cycle: the fetch followed by the body of
`update`, collecting the log messages of both. -/
def updateCycle (dist : ℚ → ℚ → ℚ → ℚ → ℚ) (net : NetResponse) (s : Sensor) :
    Except PyError (Sensor × List LogEvent) :=
  match get_vehicles net with
  | (result, flogs) =>
    match update dist result s with
    | .ok (s2, ulogs) => .ok (s2, flogs ++ ulogs)
    | .error e => .error e

/-! ### Throttling -/

/-- `MIN_TIME_BETWEEN_UPDATES = timedelta(minutes=10)`, in seconds. -/
def MIN_TIME_BETWEEN_UPDATES : ℚ := 600

/-- The sensor together with the timestamp state kept by the `Throttle`
decorator wrapped around `update`. -/
structure ThrottledSensor where
  sensor : Sensor
  lastCalled : Option ℚ

/-- Modelled from the spec: the `@Throttle(MIN_TIME_BETWEEN_UPDATES)`
decorator is `homeassistant.util.Throttle`, which is not part of this
repository.  Per the spec (§4.2, §9): store the last-invocation timestamp;
at call entry compare against the current time; if the call falls within the
minimum interval of the previous completed call, skip the body entirely
(returning the previous state unchanged, no queueing); otherwise run the
body and record the timestamp.  The returned `Nat` counts the network calls
performed by this invocation. -/
def throttledUpdate (dist : ℚ → ℚ → ℚ → ℚ → ℚ) (net : NetResponse) (now : ℚ)
    (ts : ThrottledSensor) : Except PyError (ThrottledSensor × Nat) :=
  match ts.lastCalled with
  | some t =>
    if now - t < MIN_TIME_BETWEEN_UPDATES then .ok (ts, 0)
    else
      match updateCycle dist net ts.sensor with
      | .ok (s2, _) => .ok ({ sensor := s2, lastCalled := some now }, 1)
      | .error e => .error e
  | none =>
    match updateCycle dist net ts.sensor with
    | .ok (s2, _) => .ok ({ sensor := s2, lastCalled := some now }, 1)
    | .error e => .error e

/-! ### Well-formed vehicle records -/

/-- A well-formed vehicle record: the `lat`, `lng`, `batteryLevel` fields the
endpoint is documented to return, as numbers. -/
structure Vehicle where
  lat : ℚ
  lng : ℚ
  batteryLevel : ℚ
deriving DecidableEq, Repr

/-- The JSON dict of a well-formed vehicle record. -/
def Vehicle.toJson (v : Vehicle) : Json :=
  .obj [("lat", .num v.lat), ("lng", .num v.lng),
        ("batteryLevel", .num v.batteryLevel)]

/-- A well-formed fetch result: `{"data": [...vehicles...]}`. -/
def goodResult (vs : List Vehicle) : Json :=
  .obj [("data", .arr (vs.map Vehicle.toJson))]

/-- The distance `update` computes for a vehicle record. -/
def distTo (dist : ℚ → ℚ → ℚ → ℚ → ℚ) (s : Sensor) (v : Vehicle) : ℚ :=
  dist v.lat v.lng s.latitude s.longitude

/-- The attribute dict `update` builds from the selected vehicle. -/
def mkAttrs (v : Vehicle) : List (String × AttrValue) :=
  [("latitude", .num (pyRound5 v.lat)),
   ("longitude", .num (pyRound5 v.lng)),
   ("battery_level", .int (pyRound v.batteryLevel)),
   ("attribution", .str ATTRIBUTION)]

/-- The first element of a list attaining the minimal key: the element a
stable sort by that key puts first. -/
def firstMinBy {α : Type} (k : α → ℚ) : List α → Option α
  | [] => none
  | a :: l =>
    match firstMinBy k l with
    | none => some a
    | some b => if k a ≤ k b then some a else some b

/-- The JSON dict of a vehicle record after the loop added `"distance"`. -/
def Vehicle.annotated (dist : ℚ → ℚ → ℚ → ℚ → ℚ) (slat slng : ℚ)
    (v : Vehicle) : Json :=
  .obj [("lat", .num v.lat), ("lng", .num v.lng),
        ("batteryLevel", .num v.batteryLevel),
        ("distance", .num (dist v.lat v.lng slat slng))]

/-- The annotated-dict/distance pair the loop produces for one record. -/
def pairFn (dist : ℚ → ℚ → ℚ → ℚ → ℚ) (slat slng : ℚ) (v : Vehicle) :
    Json × ℚ :=
  (v.annotated dist slat slng, dist v.lat v.lng slat slng)

/-! ### Concrete instances used in closed theorems -/

/-- A concrete distance function: returns the vehicle's `lat` argument. -/
def distLat : ℚ → ℚ → ℚ → ℚ → ℚ := fun la _ _ _ => la

/-- A concrete constant distance function (all vehicles 50 m away). -/
def distConst : ℚ → ℚ → ℚ → ℚ → ℚ := fun _ _ _ _ => 50

/-- A sensor holding a stale reading from a previous cycle. -/
def staleSensor : Sensor :=
  { latitude := 52.5, longitude := 13.4, radius := 500,
    state := some 7, attributes := [("latitude", AttrValue.num 1)] }

def vehicleA : Vehicle := { lat := 120.4, lng := 1, batteryLevel := 30 }

def vehicleB : Vehicle := { lat := 80.1, lng := 2, batteryLevel := 55.5 }

def vehicleC : Vehicle := { lat := 300, lng := 3, batteryLevel := 90 }

def tieVehicleA : Vehicle := { lat := 1, lng := 1, batteryLevel := 10 }

def tieVehicleB : Vehicle := { lat := 2, lng := 2, batteryLevel := 20 }

def roundVehicle : Vehicle := { lat := 52.123456, lng := 13.4, batteryLevel := 87.6 }

/-! ### Helper lemmas -/

theorem keyLe_trans {α : Type} (k : α → ℚ) : ∀ (a b c : α),
    keyLe k a b = true → keyLe k b c = true → keyLe k a c = true := by
  intro a b c hab hbc
  simp only [keyLe, decide_eq_true_eq] at *
  exact le_trans hab hbc

theorem keyLe_total {α : Type} (k : α → ℚ) : ∀ (a b : α),
    (keyLe k a b || keyLe k b a) = true := by
  intro a b
  simp only [keyLe, Bool.or_eq_true, decide_eq_true_eq]
  exact le_total (k a) (k b)

/-- The head of a stable sort by a key is the first element attaining the
minimal key. -/
theorem head_mergeSort_eq_firstMinBy {α : Type} (k : α → ℚ) (l : List α) :
    (l.mergeSort (keyLe k)).head? = firstMinBy k l := by
  induction l with
  | nil => simp [List.mergeSort, firstMinBy]
  | cons a l ih =>
    obtain ⟨l₁, l₂, h₁, h₂, h₃⟩ :=
      List.mergeSort_cons (keyLe_trans k) (keyLe_total k) a l
    match hl₁ : l₁ with
    | [] =>
      subst hl₁
      simp only [List.nil_append] at h₁ h₂
      rw [h₁]
      rw [h₂] at ih
      match hl₂ : l₂ with
      | [] =>
        subst hl₂
        simp only [List.head?] at ih ⊢
        rw [firstMinBy, ← ih]
      | c :: l₂' =>
        subst hl₂
        simp only [List.head?] at ih ⊢
        rw [firstMinBy, ← ih]
        have hs := List.sorted_mergeSort (keyLe_trans k) (keyLe_total k) (a :: l)
        rw [h₁] at hs
        have hac : keyLe k a c = true := (List.pairwise_cons.mp hs).1 c (by simp)
        simp only [keyLe, decide_eq_true_eq] at hac
        simp [hac]
    | c :: l₁' =>
      subst hl₁
      simp only [List.cons_append] at h₁ h₂
      rw [h₁]
      rw [h₂] at ih
      simp only [List.head?] at ih ⊢
      rw [firstMinBy, ← ih]
      have hca := h₃ c (by simp)
      simp only [Bool.not_eq_true', keyLe, decide_eq_false_iff_not] at hca
      simp [hca]

theorem firstMinBy_cons_isSome {α : Type} (k : α → ℚ) (a : α) (l : List α) :
    ∃ b, firstMinBy k (a :: l) = some b := by
  rw [firstMinBy]
  cases firstMinBy k l with
  | none => exact ⟨a, rfl⟩
  | some c =>
    by_cases h : k a ≤ k c
    · exact ⟨a, by simp [h]⟩
    · exact ⟨c, by simp [h]⟩

theorem firstMinBy_eq_none_iff {α : Type} (k : α → ℚ) (l : List α) :
    firstMinBy k l = none ↔ l = [] := by
  cases l with
  | nil => simp [firstMinBy]
  | cons a l =>
    obtain ⟨b, hb⟩ := firstMinBy_cons_isSome k a l
    simp [hb]

theorem firstMinBy_mem {α : Type} (k : α → ℚ) (l : List α) (b : α)
    (h : firstMinBy k l = some b) : b ∈ l := by
  induction l generalizing b with
  | nil => simp [firstMinBy] at h
  | cons a l ih =>
    rw [firstMinBy] at h
    cases hfm : firstMinBy k l with
    | none =>
      rw [hfm] at h
      simp only [Option.some.injEq] at h
      simp [h]
    | some c =>
      rw [hfm] at h
      by_cases hle : k a ≤ k c
      · simp only [if_pos hle, Option.some.injEq] at h
        simp [h]
      · simp only [if_neg hle, Option.some.injEq] at h
        subst h
        exact List.mem_cons_of_mem a (ih c hfm)

theorem firstMinBy_min {α : Type} (k : α → ℚ) (l : List α) (b : α)
    (h : firstMinBy k l = some b) : ∀ x ∈ l, k b ≤ k x := by
  induction l generalizing b with
  | nil => simp [firstMinBy] at h
  | cons a l ih =>
    rw [firstMinBy] at h
    cases hfm : firstMinBy k l with
    | none =>
      rw [hfm] at h
      simp only [Option.some.injEq] at h
      subst h
      have hl : l = [] := (firstMinBy_eq_none_iff k l).mp hfm
      subst hl
      simp
    | some c =>
      rw [hfm] at h
      have hc := ih c hfm
      by_cases hle : k a ≤ k c
      · simp only [if_pos hle, Option.some.injEq] at h
        subst h
        intro x hx
        rcases List.mem_cons.mp hx with rfl | hx
        · exact le_refl _
        · exact le_trans hle (hc x hx)
      · simp only [if_neg hle, Option.some.injEq] at h
        subst h
        intro x hx
        rcases List.mem_cons.mp hx with rfl | hx
        · exact le_of_not_le hle
        · exact hc x hx

theorem firstMinBy_map {α β : Type} (g : α → β) (k : β → ℚ) (l : List α) :
    firstMinBy k (l.map g) = (firstMinBy (fun a => k (g a)) l).map g := by
  induction l with
  | nil => rfl
  | cons a l ih =>
    simp only [List.map_cons]
    rw [firstMinBy, ih, firstMinBy]
    cases firstMinBy (fun a => k (g a)) l with
    | none => rfl
    | some b =>
      by_cases hle : k (g a) ≤ k (g b)
      · simp [hle]
      · simp [hle]

/-- Under a global lower bound `d`, the first element whose key equals `d`
is the first element attaining the minimal key. -/
theorem firstMinBy_eq_find {α : Type} (k : α → ℚ) (d : ℚ) (l : List α) (v : α)
    (hmin : ∀ x ∈ l, d ≤ k x)
    (hfind : l.find? (fun x => decide (k x = d)) = some v) :
    firstMinBy k l = some v ∧ k v = d := by
  induction l with
  | nil => simp at hfind
  | cons a l ih =>
    rw [List.find?_cons] at hfind
    by_cases ha : k a = d
    · simp only [decide_eq_true ha] at hfind
      simp only [Option.some.injEq] at hfind
      subst hfind
      refine ⟨?_, ha⟩
      rw [firstMinBy]
      cases hfm : firstMinBy k l with
      | none => rfl
      | some c =>
        have hc : d ≤ k c := hmin c (List.mem_cons_of_mem a (firstMinBy_mem k l c hfm))
        have hac : k a ≤ k c := le_trans (le_of_eq ha) hc
        simp [hac]
    · simp only [decide_eq_false ha] at hfind
      have hmin' : ∀ x ∈ l, d ≤ k x := fun x hx => hmin x (List.mem_cons_of_mem a hx)
      obtain ⟨hfm, hkv⟩ := ih hmin' hfind
      refine ⟨?_, hkv⟩
      rw [firstMinBy, hfm]
      have hda : d ≤ k a := hmin a (List.mem_cons_self a l)
      have hlt : ¬ k a ≤ k v := by
        rw [hkv]
        intro hle
        exact ha (le_antisymm hle hda)
      simp [hlt]

theorem lookup_nil {α : Type} (key : String) : lookup ([] : List (String × α)) key = none := rfl

theorem lookup_ne_nil {α : Type} (fields : List (String × α)) (key : String) (v : α)
    (h : lookup fields key = some v) : fields ≠ [] := by
  intro hf
  subst hf
  simp [lookup] at h

/-- One loop iteration on a well-formed record computes its distance and
appends the `"distance"` key. -/
theorem annotateVehicle_toJson (dist : ℚ → ℚ → ℚ → ℚ → ℚ) (slat slng : ℚ)
    (v : Vehicle) :
    annotateVehicle dist slat slng v.toJson = .ok (pairFn dist slat slng v) := rfl

/-- The whole loop on a list of well-formed records. -/
theorem annotateAll_map (dist : ℚ → ℚ → ℚ → ℚ → ℚ) (slat slng : ℚ)
    (vs : List Vehicle) :
    annotateAll dist slat slng (vs.map Vehicle.toJson) =
      .ok (vs.map (pairFn dist slat slng)) := by
  induction vs with
  | nil => rfl
  | cons v vs ih =>
    simp only [List.map_cons]
    rw [annotateAll, annotateVehicle_toJson, ih]

/-- The final state/attribute assignments on an annotated well-formed record. -/
theorem finishScooter_pairFn (dist : ℚ → ℚ → ℚ → ℚ → ℚ) (slat slng : ℚ)
    (v : Vehicle) :
    finishScooter (pairFn dist slat slng v) =
      .ok (pyRound (dist v.lat v.lng slat slng), mkAttrs v) := rfl

/-- `processVehicles` on a list of well-formed records: empty list keeps the
unknown reading; otherwise the first record of minimal distance is selected. -/
theorem processVehicles_goodList (dist : ℚ → ℚ → ℚ → ℚ → ℚ) (slat slng : ℚ)
    (vs : List Vehicle) :
    processVehicles dist slat slng (.arr (vs.map Vehicle.toJson)) =
      match firstMinBy (fun v => dist v.lat v.lng slat slng) vs with
      | none => .ok (none, [])
      | some v => .ok (some (pyRound (dist v.lat v.lng slat slng)), mkAttrs v) := by
  cases vs with
  | nil => rfl
  | cons w vs =>
    obtain ⟨v, hv⟩ := firstMinBy_cons_isSome (fun v => dist v.lat v.lng slat slng) w vs
    rw [hv]
    rw [processVehicles]
    have ht : truthy (.arr ((w :: vs).map Vehicle.toJson)) = true := by
      simp [truthy]
    rw [if_pos ht]
    have hkey : (fun a => (pairFn dist slat slng a).2) =
        (fun v : Vehicle => dist v.lat v.lng slat slng) := rfl
    have hhead :
        (((w :: vs).map (pairFn dist slat slng)).mergeSort (keyLe Prod.snd)).head? =
          some (pairFn dist slat slng v) := by
      rw [head_mergeSort_eq_firstMinBy, firstMinBy_map, hkey, hv]
      rfl
    simp only [annotateAll_map, hhead, finishScooter_pairFn]

/-- `update` on a `None` fetch result: log the empty result and keep the
reset (unknown) reading. -/
theorem update_none (dist : ℚ → ℚ → ℚ → ℚ → ℚ) (s : Sensor) :
    update dist none s =
      .ok ({ s with state := none, attributes := [] }, [.emptyResult]) := rfl

/-- `update` on a falsy (but non-`None`) fetch result behaves exactly like
the `None` case. -/
theorem update_falsy (dist : ℚ → ℚ → ℚ → ℚ → ℚ) (s : Sensor) (r : Json)
    (h : truthy r = false) :
    update dist (some r) s =
      .ok ({ s with state := none, attributes := [] }, [.emptyResult]) := by
  have hex : extractData (some r) = .ok (.obj [], [.emptyResult]) := by
    simp only [extractData, h]
    rfl
  simp only [update, hex]
  rfl

/-- `update` on a truthy dict without a `"data"` key: the `KeyError` is
caught, the erroneous result is logged, the reading stays unknown. -/
theorem update_no_data (dist : ℚ → ℚ → ℚ → ℚ → ℚ) (s : Sensor)
    (fields : List (String × Json)) (hne : fields ≠ [])
    (h : lookup fields "data" = none) :
    update dist (some (.obj fields)) s =
      .ok ({ s with state := none, attributes := [] }, [.erroneousResult]) := by
  have ht : truthy (.obj fields) = true := by
    cases fields with
    | nil => exact absurd rfl hne
    | cons p rest => rfl
  have hex : extractData (some (.obj fields)) = .ok (.obj [], [.erroneousResult]) := by
    simp only [extractData, ht, h]
    rfl
  simp only [update, hex]
  rfl

/-- The central characterization of a successful cycle: if the `"data"`
field holds a list of well-formed vehicle records, `update` resets and, when
the list is nonempty, reports the first record of minimal distance. -/
theorem update_data_field (dist : ℚ → ℚ → ℚ → ℚ → ℚ) (s : Sensor)
    (fields : List (String × Json)) (vs : List Vehicle)
    (h : lookup fields "data" = some (.arr (vs.map Vehicle.toJson))) :
    update dist (some (.obj fields)) s =
      match firstMinBy (distTo dist s) vs with
      | none => .ok ({ s with state := none, attributes := [] }, [])
      | some v =>
        .ok ({ s with state := some (pyRound (distTo dist s v)), attributes := mkAttrs v }, []) := by
  have hne : fields ≠ [] := lookup_ne_nil fields "data" _ h
  have ht : truthy (.obj fields) = true := by
    cases fields with
    | nil => exact absurd rfl hne
    | cons p rest => rfl
  have hex : extractData (some (.obj fields)) =
      .ok (.arr (vs.map Vehicle.toJson), []) := by
    simp only [extractData, ht, h]
    rfl
  have hpv := processVehicles_goodList dist s.latitude s.longitude vs
  rw [show (fun v : Vehicle => dist v.lat v.lng s.latitude s.longitude) =
      distTo dist s from rfl] at hpv
  cases hfm : firstMinBy (distTo dist s) vs with
  | none =>
    rw [hfm] at hpv
    simp only [update, hex, hpv]
  | some v =>
    rw [hfm] at hpv
    simp only [update, hex, hpv]
    rfl

/-- Whenever lines 154–157 complete, the attribute dict holds exactly the
four keys, with the static attribution string. -/
theorem finishScooter_ok_shape (sc : Json × ℚ) (z : ℤ)
    (attrs : List (String × AttrValue)) (h : finishScooter sc = .ok (z, attrs)) :
    ∃ a b c, attrs =
      [("latitude", AttrValue.num a), ("longitude", AttrValue.num b),
       ("battery_level", AttrValue.int c), ("attribution", AttrValue.str ATTRIBUTION)] := by
  unfold finishScooter at h
  repeat' split at h
  all_goals cases h
  exact ⟨_, _, _, rfl⟩

/-- Whenever lines 146–158 complete, either the reading stays unknown with
empty attributes, or the state is set and the attributes hold exactly the
four keys. -/
theorem processVehicles_ok_shape (dist : ℚ → ℚ → ℚ → ℚ → ℚ) (slat slng : ℚ)
    (j : Json) (st : Option ℤ) (attrs : List (String × AttrValue))
    (h : processVehicles dist slat slng j = .ok (st, attrs)) :
    (st = none ∧ attrs = []) ∨
    (∃ z a b c, st = some z ∧ attrs =
      [("latitude", AttrValue.num a), ("longitude", AttrValue.num b),
       ("battery_level", AttrValue.int c), ("attribution", AttrValue.str ATTRIBUTION)]) := by
  unfold processVehicles at h
  split at h
  · split at h
    · split at h
      · cases h
      · split at h
        · cases h
        · split at h
          · cases h
          · rename_i z attrs2 heq
            cases h
            rcases finishScooter_ok_shape _ _ _ heq with ⟨a, b, c, rfl⟩
            exact Or.inr ⟨z, a, b, c, rfl, rfl⟩
    · cases h
  · cases h
    exact Or.inl ⟨rfl, rfl⟩

/-- Whenever `update` completes without raising, the resulting sensor state
is unknown with empty attributes, or known with exactly the four attribute
keys. -/
theorem update_ok_shape (dist : ℚ → ℚ → ℚ → ℚ → ℚ) (result : Option Json)
    (s s2 : Sensor) (logs : List LogEvent)
    (h : update dist result s = .ok (s2, logs)) :
    (s2.state = none ∧ s2.attributes = []) ∨
    (∃ z a b c, s2.state = some z ∧ s2.attributes =
      [("latitude", AttrValue.num a), ("longitude", AttrValue.num b),
       ("battery_level", AttrValue.int c), ("attribution", AttrValue.str ATTRIBUTION)]) := by
  unfold update at h
  split at h
  · cases h
  · split at h
    · cases h
    · rename_i st_attrs hpv
      cases h
      exact processVehicles_ok_shape _ _ _ _ _ _ hpv

/-! ### Claims -/

/-- Claim C1: for a permitted update whose fetch yields a vehicle list, the
selector computes the distance from the sensor's fixed location to every
vehicle, sets the state to the minimal such distance rounded to the nearest
integer meter, and sets the attributes to the selected vehicle's rounded
coordinates and battery level (`firstMinBy` is the first vehicle of minimal
distance, so its distance is a lower bound of all computed distances). -/
theorem update_sets_nearest_distance (dist : ℚ → ℚ → ℚ → ℚ → ℚ) (s : Sensor)
    (vs : List Vehicle) (v : Vehicle)
    (h : firstMinBy (distTo dist s) vs = some v) :
    (update dist (some (goodResult vs)) s =
      .ok ({ s with state := some (pyRound (distTo dist s v)), attributes := mkAttrs v }, []))
    ∧ (∀ w ∈ vs, distTo dist s v ≤ distTo dist s w) := by
  constructor
  · have hu := update_data_field dist s [("data", .arr (vs.map Vehicle.toJson))] vs rfl
    rw [h] at hu
    exact hu
  · exact firstMinBy_min _ vs v h

/-- Claim C1 instance: vehicles at distances 120.4, 80.1 and 300.0 m; the
state becomes 80 and the attributes come from the second vehicle. -/
theorem update_sets_nearest_distance_instance :
    firstMinBy (distTo distLat staleSensor) [vehicleA, vehicleB, vehicleC] = some vehicleB ∧
    update distLat (some (goodResult [vehicleA, vehicleB, vehicleC])) staleSensor =
      .ok ({ staleSensor with state := some 80, attributes := mkAttrs vehicleB }, []) := by
  have hfm : firstMinBy (distTo distLat staleSensor) [vehicleA, vehicleB, vehicleC] =
      some vehicleB := by
    norm_num [firstMinBy, distTo, distLat, vehicleA, vehicleB, vehicleC]
  refine ⟨hfm, ?_⟩
  have h := (update_sets_nearest_distance distLat staleSensor
    [vehicleA, vehicleB, vehicleC] vehicleB hfm).1
  have h80 : pyRound (distTo distLat staleSensor vehicleB) = 80 := by
    norm_num [distTo, distLat, vehicleB, pyRound]
  rw [h80] at h
  exact h

/-- Claim C2: on a permitted update cycle in which the fetch result is null
or the fetched vehicle list is empty, the state is left unknown and the
attributes empty — the previous reading of the (arbitrary) starting sensor
is reset, never retained. -/
theorem update_resets_on_empty_or_null (dist : ℚ → ℚ → ℚ → ℚ → ℚ) (s : Sensor)
    (result : Option Json)
    (h : result = none ∨ ∃ fields, result = some (.obj fields) ∧
         lookup fields "data" = some (.arr [])) :
    ∃ logs, update dist result s =
      .ok ({ s with state := none, attributes := [] }, logs) := by
  rcases h with rfl | ⟨fields, rfl, hf⟩
  · exact ⟨[.emptyResult], update_none dist s⟩
  · exact ⟨[], update_data_field dist s fields [] hf⟩

/-- Claim C2 instance: a null fetch result resets a stale sensor. -/
theorem update_resets_on_empty_or_null_instance :
    ∃ logs, update distLat none staleSensor =
      .ok ({ staleSensor with state := none, attributes := [] }, logs) :=
  update_resets_on_empty_or_null distLat staleSensor none (Or.inl rfl)

/-- Claim C3: if several vehicles are at equal minimal computed distance
`d`, `update` selects the one appearing first in the input list (stable
sort by distance, take first): the reported attributes are those of the
first list element whose distance equals `d`. -/
theorem update_tie_break_first (dist : ℚ → ℚ → ℚ → ℚ → ℚ) (s : Sensor)
    (vs : List Vehicle) (d : ℚ) (v : Vehicle)
    (hmin : ∀ w ∈ vs, d ≤ distTo dist s w)
    (hfind : vs.find? (fun w => decide (distTo dist s w = d)) = some v) :
    update dist (some (goodResult vs)) s =
      .ok ({ s with state := some (pyRound d), attributes := mkAttrs v }, []) := by
  obtain ⟨hfm, hd⟩ := firstMinBy_eq_find (distTo dist s) d vs v hmin hfind
  have hu := update_data_field dist s [("data", .arr (vs.map Vehicle.toJson))] vs rfl
  rw [hfm] at hu
  have hu2 : update dist (some (goodResult vs)) s =
      .ok ({ s with state := some (pyRound (distTo dist s v)), attributes := mkAttrs v }, []) := hu
  rw [hd] at hu2
  exact hu2

/-- Claim C3 instance: two vehicles both 50 m away; the first of the input
list is selected. -/
theorem update_tie_break_first_instance :
    List.find? (fun w => decide (distTo distConst staleSensor w = 50))
      [tieVehicleA, tieVehicleB] = some tieVehicleA ∧
    update distConst (some (goodResult [tieVehicleA, tieVehicleB])) staleSensor =
      .ok ({ staleSensor with state := some 50, attributes := mkAttrs tieVehicleA }, []) := by
  have hmin : ∀ w ∈ [tieVehicleA, tieVehicleB], (50 : ℚ) ≤ distTo distConst staleSensor w := by
    intro w hw
    norm_num [distTo, distConst]
  have hfind : List.find? (fun w => decide (distTo distConst staleSensor w = 50))
      [tieVehicleA, tieVehicleB] = some tieVehicleA := by
    norm_num [List.find?, distTo, distConst]
  refine ⟨hfind, ?_⟩
  have h := update_tie_break_first distConst staleSensor [tieVehicleA, tieVehicleB]
    50 tieVehicleA hmin hfind
  have h50 : pyRound 50 = 50 := by norm_num [pyRound]
  rw [h50] at h
  exact h

/-- Claim C4: with no previous call, the first `update` runs its body (one
network call); a second call within the 10-minute throttle interval is
suppressed — it performs no network call, its body is skipped, and the
state produced by the first call (including its timestamp) is unchanged. -/
theorem throttle_suppresses_second_call (dist : ℚ → ℚ → ℚ → ℚ → ℚ)
    (net1 net2 : NetResponse) (t1 t2 : ℚ) (s0 : Sensor)
    (ts1 : ThrottledSensor) (n1 : ℕ)
    (h1 : throttledUpdate dist net1 t1 ⟨s0, none⟩ = .ok (ts1, n1))
    (h2 : t2 - t1 < MIN_TIME_BETWEEN_UPDATES) :
    n1 = 1 ∧ throttledUpdate dist net2 t2 ts1 = .ok (ts1, 0) := by
  simp only [throttledUpdate] at h1
  cases hc : updateCycle dist net1 s0 with
  | error e =>
    rw [hc] at h1
    cases h1
  | ok p =>
    obtain ⟨s2, logs⟩ := p
    rw [hc] at h1
    cases h1
    refine ⟨rfl, ?_⟩
    simp only [throttledUpdate]
    rw [if_pos h2]

/-- Claim C4 instance: a first permitted call at time 0, a second at time
300 s (inside the 600 s interval): one network call in total, the second
call changes nothing. -/
theorem throttle_suppresses_second_call_instance :
    ∃ ts1 n1, throttledUpdate distLat (.ok (goodResult [])) 0 ⟨staleSensor, none⟩ =
        .ok (ts1, n1) ∧
      n1 = 1 ∧ throttledUpdate distLat (.ok (goodResult [])) 300 ts1 = .ok (ts1, 0) := by
  have h1 : throttledUpdate distLat (.ok (goodResult [])) 0 ⟨staleSensor, none⟩ =
      .ok (⟨{ staleSensor with state := none, attributes := [] }, some 0⟩, 1) := rfl
  have h2 : (300 : ℚ) - 0 < MIN_TIME_BETWEEN_UPDATES := by
    norm_num [MIN_TIME_BETWEEN_UPDATES]
  exact ⟨_, _, h1, throttle_suppresses_second_call distLat (.ok (goodResult []))
    (.ok (goodResult [])) 0 300 staleSensor _ _ h1 h2⟩

/-- Claim C5: for every network outcome, `get_vehicles` never lets an
exception escape: the `try` block's result is either a parsed body, which
is returned, or a caught `RequestException`/`ValueError`, which yields a
null return with exactly one logged error. -/
theorem get_vehicles_never_raises (net : NetResponse) :
    (∃ body, attemptFetch net = .ok body ∧ get_vehicles net = (some body, [])) ∨
    (∃ e, attemptFetch net = .error e ∧ (get_vehicles net).1 = none ∧
      (get_vehicles net).2.length = 1) := by
  cases net with
  | ok body => exact Or.inl ⟨body, rfl, rfl⟩
  | connectionError => exact Or.inr ⟨.requestException, rfl, rfl, rfl⟩
  | timeout => exact Or.inr ⟨.requestException, rfl, rfl, rfl⟩
  | httpError c => exact Or.inr ⟨.requestException, rfl, rfl, rfl⟩
  | badBody => exact Or.inr ⟨.valueError, rfl, rfl, rfl⟩

/-- Claim C6 counterexample: an otherwise valid response whose vehicle list
is empty (`{"data": []}`) produces the unknown reading with NO logged
message — the claim that each of the five error conditions is logged fails
on the empty-vehicle-list condition. -/
theorem empty_list_cycle_unlogged :
    updateCycle distLat (.ok (goodResult [])) staleSensor =
      .ok ({ staleSensor with state := none, attributes := [] }, []) := rfl

/-- Claim C6 (amended): transport failures, non-2xx statuses, unparseable
bodies, and a truthy dict missing `"data"` are each logged and produce an
unknown reading; an empty vehicle list inside a truthy response also
produces an unknown reading but silently, with no log. -/
theorem error_conditions_logging (dist : ℚ → ℚ → ℚ → ℚ → ℚ) (s : Sensor)
    (net : NetResponse) :
    ((net = .connectionError ∨ net = .timeout ∨ (∃ c, net = .httpError c) ∨ net = .badBody) →
      ∃ logs, updateCycle dist net s =
        .ok ({ s with state := none, attributes := [] }, logs) ∧ logs ≠ []) ∧
    (∀ fields, net = .ok (.obj fields) → fields ≠ [] → lookup fields "data" = none →
      updateCycle dist net s =
        .ok ({ s with state := none, attributes := [] }, [.erroneousResult])) ∧
    (∀ fields, net = .ok (.obj fields) → lookup fields "data" = some (.arr []) →
      updateCycle dist net s =
        .ok ({ s with state := none, attributes := [] }, [])) := by
  refine ⟨?_, ?_, ?_⟩
  · rintro (rfl | rfl | ⟨c, rfl⟩ | rfl) <;>
      exact ⟨_, rfl, by simp⟩
  · rintro fields rfl hne hnd
    have hu := update_no_data dist s fields hne hnd
    simp only [updateCycle, get_vehicles, attemptFetch, hu]
    rfl
  · rintro fields rfl hd
    have hu : update dist (some (.obj fields)) s =
        .ok ({ s with state := none, attributes := [] }, []) :=
      update_data_field dist s fields [] hd
    simp only [updateCycle, get_vehicles, attemptFetch, hu]
    rfl

/-- Claim C6 (amended) instance: a connection failure is logged and resets;
a truthy response without `"data"` is logged and resets; `{"data": []}`
resets without a log. -/
theorem error_conditions_logging_instance :
    (∃ logs, updateCycle distLat .connectionError staleSensor =
      .ok ({ staleSensor with state := none, attributes := [] }, logs) ∧ logs ≠ []) ∧
    updateCycle distLat (.ok (.obj [("foo", .num 1)])) staleSensor =
      .ok ({ staleSensor with state := none, attributes := [] }, [.erroneousResult]) ∧
    updateCycle distLat (.ok (.obj [("data", .arr [])])) staleSensor =
      .ok ({ staleSensor with state := none, attributes := [] }, []) := by
  refine ⟨(error_conditions_logging distLat staleSensor .connectionError).1 (Or.inl rfl),
    (error_conditions_logging distLat staleSensor _).2.1 [("foo", .num 1)] rfl (by simp) rfl,
    (error_conditions_logging distLat staleSensor _).2.2 [("data", .arr [])] rfl rfl⟩

/-- Claim C7 counterexample: a fetch result whose `"data"` list holds a
vehicle record without a `"lat"` key makes `update` raise an uncaught
`KeyError` to its caller — refuting "update() never raises an unhandled
fault for any vehicle-list content". -/
theorem update_raises_keyerror :
    update distLat (some (.obj [("data", .arr [Json.obj []])])) staleSensor =
      .error (.keyError "lat") := rfl

/-- Claim C7 (amended): `update` never raises when the fetch result is
null, falsy, a dict without a `"data"` key, or a dict whose `"data"` field
is a list of well-formed vehicle records; malformed vehicle entries (or
truthy non-dict results, or truthy non-list `"data"` fields) can instead
raise `KeyError`/`TypeError` to the caller. -/
theorem update_ok_on_wellformed (dist : ℚ → ℚ → ℚ → ℚ → ℚ) (s : Sensor)
    (result : Option Json)
    (h : result = none ∨ (∃ r, result = some r ∧ truthy r = false) ∨
         (∃ fields, result = some (.obj fields) ∧ lookup fields "data" = none) ∨
         (∃ (fields : List (String × Json)) (vs : List Vehicle),
            result = some (.obj fields) ∧
            lookup fields "data" = some (.arr (vs.map Vehicle.toJson)))) :
    ∃ s2 logs, update dist result s = .ok (s2, logs) := by
  rcases h with rfl | ⟨r, rfl, hr⟩ | ⟨fields, rfl, hnd⟩ | ⟨fields, vs, rfl, hd⟩
  · exact ⟨_, _, update_none dist s⟩
  · exact ⟨_, _, update_falsy dist s r hr⟩
  · by_cases hne : fields = []
    · subst hne
      exact ⟨_, _, update_falsy dist s _ rfl⟩
    · exact ⟨_, _, update_no_data dist s fields hne hnd⟩
  · have hu := update_data_field dist s fields vs hd
    cases hfm : firstMinBy (distTo dist s) vs with
    | none =>
      rw [hfm] at hu
      exact ⟨_, _, hu⟩
    | some v =>
      rw [hfm] at hu
      exact ⟨_, _, hu⟩

/-- Claim C7 (amended) instance: a well-formed one-vehicle response
completes without raising. -/
theorem update_ok_on_wellformed_instance :
    ∃ s2 logs, update distLat (some (.obj [("data", .arr [Vehicle.toJson vehicleA])]))
      staleSensor = .ok (s2, logs) :=
  update_ok_on_wellformed distLat staleSensor _
    (Or.inr (Or.inr (Or.inr ⟨[("data", .arr [Vehicle.toJson vehicleA])], [vehicleA], rfl, rfl⟩)))

/-- Claim C8: on a successful cycle the nearest vehicle's coordinates are
reported rounded to 5 decimal places and its battery level rounded to the
nearest integer (Python 3 `round`, round-half-to-even). -/
theorem nearest_attributes_rounding (dist : ℚ → ℚ → ℚ → ℚ → ℚ) (s : Sensor)
    (vs : List Vehicle) (v : Vehicle)
    (h : firstMinBy (distTo dist s) vs = some v) :
    ∃ s2, update dist (some (goodResult vs)) s = .ok (s2, []) ∧
      lookup s2.attributes "latitude" = some (.num (pyRound5 v.lat)) ∧
      lookup s2.attributes "longitude" = some (.num (pyRound5 v.lng)) ∧
      lookup s2.attributes "battery_level" = some (.int (pyRound v.batteryLevel)) := by
  have hu := update_data_field dist s [("data", .arr (vs.map Vehicle.toJson))] vs rfl
  rw [h] at hu
  exact ⟨_, hu, rfl, rfl, rfl⟩

/-- Claim C8 instance: a vehicle at latitude 52.123456 is reported with
attribute latitude 52.12346, and battery level 87.6 as 88. -/
theorem nearest_attributes_rounding_instance :
    ∃ s2, update distLat (some (goodResult [roundVehicle])) staleSensor = .ok (s2, []) ∧
      lookup s2.attributes "latitude" = some (.num 52.12346) ∧
      lookup s2.attributes "battery_level" = some (.int 88) := by
  obtain ⟨s2, h1, h2, h3, h4⟩ :=
    nearest_attributes_rounding distLat staleSensor [roundVehicle] roundVehicle rfl
  refine ⟨s2, h1, ?_, ?_⟩
  · rw [h2]
    norm_num [roundVehicle, pyRound5, pyRound]
  · rw [h4]
    norm_num [roundVehicle, pyRound]

/-- Claim C9 (implicit): `update` distinguishes fetch outcomes by Python
truthiness, not by null-ness — every falsy non-null result behaves exactly
like the null result (empty-result error logged, reading unknown), while a
truthy result with an empty `"data"` list leaves the reading unknown
without logging anything. -/
theorem update_truthiness_distinction (dist : ℚ → ℚ → ℚ → ℚ → ℚ) (s : Sensor) :
    (∀ r : Json, truthy r = false →
      update dist (some r) s =
        .ok ({ s with state := none, attributes := [] }, [.emptyResult]) ∧
      update dist (some r) s = update dist none s) ∧
    (∀ fields, lookup fields "data" = some (.arr []) →
      update dist (some (.obj fields)) s =
        .ok ({ s with state := none, attributes := [] }, [])) := by
  constructor
  · intro r hr
    refine ⟨update_falsy dist s r hr, ?_⟩
    rw [update_falsy dist s r hr, update_none]
  · intro fields hd
    exact update_data_field dist s fields [] hd

/-- Claim C9 instance: an empty JSON object (non-null, falsy) is treated
like null; a truthy `{"data": []}` resets silently. -/
theorem update_truthiness_distinction_instance :
    truthy (Json.obj []) = false ∧
    update distLat (some (Json.obj [])) staleSensor =
      .ok ({ staleSensor with state := none, attributes := [] }, [.emptyResult]) ∧
    update distLat (some (Json.obj [("data", Json.arr [])])) staleSensor =
      .ok ({ staleSensor with state := none, attributes := [] }, []) :=
  ⟨rfl, ((update_truthiness_distinction distLat staleSensor).1 (Json.obj []) rfl).1,
    (update_truthiness_distinction distLat staleSensor).2 [("data", Json.arr [])] rfl⟩

/-- Claim C10 (implicit invariant): after construction, and after every
completed `update` cycle, the state is `None` exactly when the attribute
dict is empty; whenever the state is a number the attributes hold exactly
the keys latitude, longitude, battery_level and attribution, the last with
the fixed string "Data provided by Tier". -/
theorem state_attributes_invariant (la ln rad : ℚ) (dist : ℚ → ℚ → ℚ → ℚ → ℚ)
    (result : Option Json) (s s2 : Sensor) (logs : List LogEvent)
    (h : update dist result s = .ok (s2, logs)) :
    (initSensor la ln rad).state = none ∧ (initSensor la ln rad).attributes = [] ∧
    (s2.state = none ↔ s2.attributes = []) ∧
    (∀ z, s2.state = some z →
      s2.attributes.map Prod.fst = ["latitude", "longitude", "battery_level", "attribution"] ∧
      lookup s2.attributes "attribution" = some (.str ATTRIBUTION)) := by
  refine ⟨rfl, rfl, ?_, ?_⟩
  · rcases update_ok_shape dist result s s2 logs h with ⟨h1, h2⟩ | ⟨z, a, b, c, h1, h2⟩
    · simp [h1, h2]
    · simp [h1, h2]
  · intro z hz
    rcases update_ok_shape dist result s s2 logs h with ⟨h1, h2⟩ | ⟨z', a, b, c, h1, h2⟩
    · rw [h1] at hz
      cases hz
    · rw [h2]
      exact ⟨rfl, rfl⟩

/-- Claim C10 instance: a successful one-vehicle cycle satisfies the
invariant. -/
theorem state_attributes_invariant_instance :
    ∃ s2, update distLat (some (goodResult [vehicleA])) staleSensor = .ok (s2, []) ∧
      (initSensor 52.5 13.4 500).state = none ∧
      (initSensor 52.5 13.4 500).attributes = [] ∧
      (s2.state = none ↔ s2.attributes = []) ∧
      ∀ z, s2.state = some z →
        s2.attributes.map Prod.fst = ["latitude", "longitude", "battery_level", "attribution"] ∧
        lookup s2.attributes "attribution" = some (.str ATTRIBUTION) := by
  have hu : update distLat (some (goodResult [vehicleA])) staleSensor =
      .ok ({ staleSensor with state := some (pyRound (distTo distLat staleSensor vehicleA)), attributes := mkAttrs vehicleA }, []) :=
    update_data_field distLat staleSensor [("data", .arr ([vehicleA].map Vehicle.toJson))]
      [vehicleA] rfl
  obtain ⟨h1, h2, h3, h4⟩ := state_attributes_invariant 52.5 13.4 500 distLat
    (some (goodResult [vehicleA])) staleSensor _ [] hu
  exact ⟨_, hu, h1, h2, h3, h4⟩

end TierScooter
